import Mathlib

/-!
Shallow embedding of the MCP (Model Context Protocol) client
(`MCPClient` in the repository's mcp client module).

The client is an async state machine: a connection-phase variable, a table of
pending requests (promise callbacks plus a timeout timer handle), a
monotonically increasing request-id counter, and a read loop that parses
newline-delimited JSON-RPC frames and dispatches them.

Modelling conventions:
- Promises are modelled by a settle-once log `settled : List (Nat × Outcome)`:
  the first settlement recorded for a request id is the one the suspended
  caller observes; later settle attempts are no-ops, mirroring JS promise
  semantics (resolve/reject after settlement does nothing).
- `async` methods that `await` a response are split at the suspension point
  into a `...Start` function (the synchronous prefix: phase checks, request
  registration, frame write) and a `...Resume` function (the code after the
  `await`, parameterised by the awaited outcome).
- Timers: `setTimeout` arms an entry in `timers`; `clearTimeout` removes it;
  a timer that fires is the `fireTimer` event. `disconnect` does NOT clear
  timers (faithful to the source, which never calls clearTimeout there).
- The transport write is recorded in `sentFrames`; a later write failure is
  the `writeFail` event (the `.catch` handler on `stdin.write`).
-/

/-- Connection phase, mirroring the union type
`'disconnected' | 'connecting' | 'connected' | 'initializing' | 'ready'`. -/
inductive ConnStatus
  | disconnected
  | connecting
  | connected
  | initializing
  | ready
deriving DecidableEq, Repr

/-- The error taxonomy: `MCPConnectionError`, `MCPTimeoutError`, and the base
`MCPError` class (the spec's "ProtocolError"), each carrying a message. -/
inductive MCPErr
  | connectionError (msg : String)
  | timeoutError (msg : String)
  | mcpError (msg : String)
deriving DecidableEq, Repr

/-- A protocol-level error payload inside a response (`{code?, message}`). -/
structure MCPErrorPayload where
  code : Int
  message : String
deriving DecidableEq, Repr

structure MCPProtocolVersion where
  major : Nat
  minor : Nat
  patch : Nat
deriving DecidableEq, Repr

/-- `{name, version}` pair used for both server and client identity. -/
structure PartyInfo where
  name : String
  version : String
deriving DecidableEq, Repr

/-- Capability set, flattened from the nested `MCPCapabilities` record
(logging level plus per-feature flags). -/
structure MCPCapabilities where
  loggingLevel : String
  toolsListChanged : Bool
  resourcesListChanged : Bool
  resourcesSubscribe : Bool
  promptsListChanged : Bool
deriving DecidableEq, Repr

/-- `MCPInitializeResult`: the handshake response payload. -/
structure MCPInitResult where
  protocolVersion : MCPProtocolVersion
  capabilities : MCPCapabilities
  serverInfo : PartyInfo
deriving DecidableEq, Repr

structure MCPTool where
  name : String
  description : String
deriving DecidableEq, Repr

/-- Dynamic `result` payload of a response (the source parses JSON into an
untyped value and casts at each use site). -/
inductive MCPResult
  | initResult (r : MCPInitResult)
  | toolList (tools : List MCPTool)
  | raw (text : String)
deriving DecidableEq, Repr

/-- `MCPInitializeParams`: the handshake request payload. -/
structure MCPInitParams where
  protocolVersion : MCPProtocolVersion
  capabilities : MCPCapabilities
  clientInfo : PartyInfo
deriving DecidableEq, Repr

/-- Typed stand-in for the `params` field of an outbound request. -/
inductive ReqParams
  | initParams (p : MCPInitParams)
  | toolCall (name : String) (args : List (String × String))
  | promptGet (name : String) (args : List (String × String))
  | resourceRead (uri : String)
deriving DecidableEq, Repr

/-- An outbound JSON-RPC request frame (`jsonrpc: "2.0"` is implicit). -/
structure MCPRequest where
  id : Nat
  method : String
  params : Option ReqParams := none
deriving DecidableEq, Repr

/-- A parsed inbound message, after `JSON.parse`. `jsonrpcOk` records whether
the `jsonrpc` field equals `"2.0"`; `id`, `method`, `result`, `error` are the
optional fields the router inspects. Client-assigned ids are numbers. -/
structure RawMessage where
  jsonrpcOk : Bool
  id : Option Nat := none
  method : Option String := none
  result : Option MCPResult := none
  error : Option MCPErrorPayload := none
deriving DecidableEq, Repr

/-- How a pending request's promise was settled. -/
inductive Outcome
  | resolved (resp : RawMessage)
  | rejected (e : MCPErr)
deriving DecidableEq, Repr

def Outcome.isRejected : Outcome → Bool
  | .resolved _ => false
  | .rejected _ => true

structure MCPToolCall where
  name : String
  args : List (String × String)
deriving DecidableEq, Repr

/-- `MCPClientConfig` (only the fields the modelled code reads). `timeout` is
`Option Nat` with JS falsiness: `0` and `undefined` both fall through. -/
structure MCPClientConfig where
  serverCommand : String
  serverArgs : List String := []
  timeout : Option Nat := none
  capabilities : Option MCPCapabilities := none
  clientInfo : Option PartyInfo := none
deriving DecidableEq, Repr

/-- The client instance state.
`pending` holds the keys of the `pendingRequests` map; `settled` is the
promise settlement log (see module comment); `timers` the armed timeout
timers as (request id, timeout ms); `sentFrames` the frames written to the
transport; `stdinOpen` whether `this.stdin` is set; `warnings` counts
`logger.warn` calls (observable log effect of dropped messages). -/
structure ClientState where
  config : MCPClientConfig
  connectionStatus : ConnStatus
  serverCapabilities : Option MCPCapabilities
  serverInfo : Option PartyInfo
  protocolVersion : Option MCPProtocolVersion
  pending : List Nat
  timers : List (Nat × Nat)
  nextRequestId : Nat
  settled : List (Nat × Outcome)
  sentFrames : List MCPRequest
  buffer : String
  stdinOpen : Bool
  warnings : Nat
deriving DecidableEq, Repr

/-- `supportedProtocolVersion` constant. -/
def supportedProtocolVersion : MCPProtocolVersion := ⟨2024, 11, 5⟩

/-- `defaultCapabilities` constant. -/
def defaultCapabilities : MCPCapabilities :=
  ⟨"info", true, false, false, false⟩

/-- `defaultClientInfo` constant. -/
def defaultClientInfo : PartyInfo := ⟨"Claude-Flow MCP Client", "1.0.0"⟩

/-- A freshly constructed client: `disconnected`, empty pending table,
`nextRequestId = 1`, no streams. -/
def freshState (cfg : MCPClientConfig) : ClientState :=
  { config := cfg
    connectionStatus := .disconnected
    serverCapabilities := none
    serverInfo := none
    protocolVersion := none
    pending := []
    timers := []
    nextRequestId := 1
    settled := []
    sentFrames := []
    buffer := ""
    stdinOpen := false
    warnings := 0 }

/-- First settlement recorded for a request id, i.e. what the suspended
caller observes. -/
def settledLookup : List (Nat × Outcome) → Nat → Option Outcome
  | [], _ => none
  | (j, o) :: rest, i => if i = j then some o else settledLookup rest i

/-- Settle a promise once: recording an outcome for an id that already has
one is a no-op (JS promise semantics). -/
def settleList (l : List (Nat × Outcome)) (i : Nat) (o : Outcome) :
    List (Nat × Outcome) :=
  match settledLookup l i with
  | some _ => l
  | none => (i, o) :: l

def settleOnce (s : ClientState) (i : Nat) (o : Outcome) : ClientState :=
  { s with settled := settleList s.settled i o }

/-- JS `a || b` on an optional number: `undefined` and `0` are falsy. -/
def orFalsyNat : Option Nat → Nat → Nat
  | some t, d => if t = 0 then d else t
  | none, d => d

/-- `timeoutMs || this.config.timeout || 30000` in `sendRequest`. -/
def effectiveTimeout (timeoutMs : Option Nat) (cfgTimeout : Option Nat) : Nat :=
  orFalsyNat timeoutMs (orFalsyNat cfgTimeout 30000)

/-- The wire string of each phase (used in the `ensureReady` message). -/
def statusText : ConnStatus → String
  | .disconnected => "disconnected"
  | .connecting => "connecting"
  | .connected => "connected"
  | .initializing => "initializing"
  | .ready => "ready"

/-- `ensureReady`: throws `MCPConnectionError` naming the current phase
unless the phase is `ready`. -/
def ensureReady (s : ClientState) : Except MCPErr Unit :=
  if s.connectionStatus = .ready then .ok ()
  else .error (.connectionError
    ("Client not ready, current status: " ++ statusText s.connectionStatus))

/-- `connect()`: from any phase other than `disconnected` it throws; from
`disconnected` it moves through `connecting`, spawns the process (modelled by
`spawnOk`), and either reaches `connected` with the streams open or reverts
to `disconnected` and throws. -/
def connect (s : ClientState) (spawnOk : Bool) :
    ClientState × Except MCPErr Unit :=
  if s.connectionStatus ≠ .disconnected then
    (s, .error (.connectionError "Client already connected or connecting"))
  else if spawnOk then
    ({ s with connectionStatus := .connected, stdinOpen := true }, .ok ())
  else
    ({ s with connectionStatus := .disconnected },
     .error (.connectionError "Failed to start MCP server process"))

/-- `getNextRequestId()`: returns the counter and post-increments it. -/
def getNextRequestId (s : ClientState) : ClientState × Nat :=
  ({ s with nextRequestId := s.nextRequestId + 1 }, s.nextRequestId)

/-- The synchronous prefix of `sendRequest(request, timeoutMs?)`: phase/stream
guard, registration of the pending entry with an armed timeout timer, and the
frame write. The caller's promise stays pending (settled later by
`processMessage`, `fireTimer`, `writeFail` or `disconnect`). -/
def sendRequestStart (s : ClientState) (req : MCPRequest)
    (timeoutMs : Option Nat) : ClientState × Except MCPErr Unit :=
  if s.connectionStatus = .disconnected ∨ s.stdinOpen = false then
    (s, .error (.connectionError "Client not connected"))
  else
    let t := effectiveTimeout timeoutMs s.config.timeout
    ({ s with
        pending := if req.id ∈ s.pending then s.pending else s.pending ++ [req.id]
        timers := s.timers ++ [(req.id, t)]
        sentFrames := s.sentFrames ++ [req] }, .ok ())

/-- The `.catch` handler of the `stdin.write` in `sendRequest`: removes the
pending entry and rejects with `MCPConnectionError` (the timer is NOT
cleared; it later fires as a no-op). -/
def writeFail (s : ClientState) (i : Nat) : ClientState :=
  settleOnce { s with pending := s.pending.erase i } i
    (.rejected (.connectionError "Failed to send request"))

/-- The timeout timer callback in `sendRequest`: deletes the pending entry
and rejects with `MCPTimeoutError` naming the bound. The timer disarms by
firing. -/
def fireTimer (s : ClientState) (i : Nat) (t : Nat) : ClientState :=
  settleOnce
    { s with pending := s.pending.erase i, timers := s.timers.erase (i, t) } i
    (.rejected (.timeoutError ("Request timeout after " ++ toString t ++ "ms")))

/-- `processMessage(line)`: parse (a `none` input is a JSON parse failure),
validate the `jsonrpc` tag, then three-way dispatch: matching response
(delete entry, clear its timer, resolve with the FULL message, error payload
or not); notification (`method` truthy and no `id`: logging only); otherwise
log a warning and drop. -/
def processMessage (s : ClientState) (msg : Option RawMessage) : ClientState :=
  match msg with
  | none => s
  | some m =>
    if m.jsonrpcOk = false then s
    else
      match m.id with
      | some i =>
        if i ∈ s.pending then
          settleOnce
            { s with
                pending := s.pending.erase i
                timers := s.timers.filter (fun p => decide (p.1 ≠ i)) } i
            (.resolved m)
        else
          { s with warnings := s.warnings + 1 }
      | none =>
        match m.method with
        | some name =>
          if name = "" then { s with warnings := s.warnings + 1 } else s
        | none => { s with warnings := s.warnings + 1 }

/-- The rejection loop of `disconnect`: one pass over the pending table,
rejecting each entry with `MCPConnectionError("Connection closed")`. -/
def rejectList (l : List (Nat × Outcome)) : List Nat → List (Nat × Outcome)
  | [] => l
  | i :: rest =>
    rejectList (settleList l i (.rejected (.connectionError "Connection closed"))) rest

/-- `disconnect()`: no-op when already `disconnected`; otherwise sets the
phase to `disconnected`, rejects every pending request in one pass, clears
the table, and closes the streams. Timers are NOT cleared (faithful: the
source never calls clearTimeout here; late firings are settle-once no-ops). -/
def disconnect (s : ClientState) : ClientState :=
  if s.connectionStatus = .disconnected then s
  else
    { s with
        connectionStatus := .disconnected
        settled := rejectList s.settled s.pending
        pending := []
        stdinOpen := false }

/-- Default handshake params when the caller passes none:
`supportedProtocolVersion`, `config.capabilities || defaultCapabilities`,
`config.clientInfo || defaultClientInfo`. -/
def defaultInitParams (cfg : MCPClientConfig) : MCPInitParams :=
  { protocolVersion := supportedProtocolVersion
    capabilities := cfg.capabilities.getD defaultCapabilities
    clientInfo := cfg.clientInfo.getD defaultClientInfo }

/-- The synchronous prefix of `initialize(params?)`: the guard
`connectionStatus !== 'connected'` throws `MCPConnectionError`; otherwise the
phase moves to `initializing` and the handshake request (method
`"initialize"`, a fresh id, the given or default params) is registered and
written. A synchronous throw from `sendRequest` is caught, the phase reverts
to `connected`, and the error is rethrown. -/
def initStart (s : ClientState) (params : Option MCPInitParams) :
    ClientState × Except MCPErr Unit :=
  if s.connectionStatus ≠ .connected then
    (s, .error (.connectionError "Client not connected"))
  else
    let s1 := { s with connectionStatus := ConnStatus.initializing }
    let p := getNextRequestId s1
    let req : MCPRequest :=
      ⟨p.2, "initialize", some (.initParams (params.getD (defaultInitParams s.config)))⟩
    match sendRequestStart p.1 req none with
    | (s2, .ok _) => (s2, .ok ())
    | (s2, .error e) =>
      ({ s2 with connectionStatus := ConnStatus.connected }, .error e)

/-- The outcome of awaiting a `sendRequest` promise. -/
inductive AwaitOutcome
  | resolvedResp (m : RawMessage)
  | rejectedErr (e : MCPErr)
deriving DecidableEq, Repr

/-- The unchecked cast `response.result as MCPInitializeResult`: on a
non-handshake payload the source would read undefined fields; modelled by a
dummy record on that (untaken in practice) path. -/
def resultAsInit : Option MCPResult → MCPInitResult
  | some (.initResult r) => r
  | _ => ⟨⟨0, 0, 0⟩, ⟨"", false, false, false, false⟩, ⟨"", ""⟩⟩

/-- `initialize` after the `await`: an error-carrying response throws the
base `MCPError` ("Initialization failed: ..."); the catch block reverts the
phase to `connected` and rethrows (also for a rejected await, e.g. timeout).
On success the server identity, capabilities and protocol version are
captured and the phase becomes `ready`. -/
def initResume (s : ClientState) (out : AwaitOutcome) :
    ClientState × Except MCPErr MCPInitResult :=
  match out with
  | .resolvedResp resp =>
    match resp.error with
    | some p =>
      ({ s with connectionStatus := ConnStatus.connected },
       .error (.mcpError ("Initialization failed: " ++ p.message)))
    | none =>
      let result := resultAsInit resp.result
      ({ s with
          protocolVersion := some result.protocolVersion
          serverCapabilities := some result.capabilities
          serverInfo := some result.serverInfo
          connectionStatus := ConnStatus.ready }, .ok result)
  | .rejectedErr e =>
    ({ s with connectionStatus := ConnStatus.connected }, .error e)

/-- `listTools()` up to its `await`: `ensureReady` gate (throws before any
frame is built or written), then a fresh id and the `tools/list` request. -/
def listToolsStart (s : ClientState) : ClientState × Except MCPErr Unit :=
  match ensureReady s with
  | .error e => (s, .error e)
  | .ok _ =>
    let p := getNextRequestId s
    sendRequestStart p.1 ⟨p.2, "tools/list", none⟩ none

/-- `listPrompts()` up to its `await`. -/
def listPromptsStart (s : ClientState) : ClientState × Except MCPErr Unit :=
  match ensureReady s with
  | .error e => (s, .error e)
  | .ok _ =>
    let p := getNextRequestId s
    sendRequestStart p.1 ⟨p.2, "prompts/list", none⟩ none

/-- `listResources()` up to its `await`. -/
def listResourcesStart (s : ClientState) : ClientState × Except MCPErr Unit :=
  match ensureReady s with
  | .error e => (s, .error e)
  | .ok _ =>
    let p := getNextRequestId s
    sendRequestStart p.1 ⟨p.2, "resources/list", none⟩ none

/-- `callTool(call)` up to its `await`. -/
def callToolStart (s : ClientState) (call : MCPToolCall) :
    ClientState × Except MCPErr Unit :=
  match ensureReady s with
  | .error e => (s, .error e)
  | .ok _ =>
    let p := getNextRequestId s
    sendRequestStart p.1 ⟨p.2, "tools/call", some (.toolCall call.name call.args)⟩ none

/-- `getPrompt(name, args?)` up to its `await` (`args || {}`). -/
def getPromptStart (s : ClientState) (name : String)
    (args : Option (List (String × String))) : ClientState × Except MCPErr Unit :=
  match ensureReady s with
  | .error e => (s, .error e)
  | .ok _ =>
    let p := getNextRequestId s
    sendRequestStart p.1 ⟨p.2, "prompts/get", some (.promptGet name (args.getD []))⟩ none

/-- `getResource(uri)` up to its `await`. -/
def getResourceStart (s : ClientState) (uri : String) :
    ClientState × Except MCPErr Unit :=
  match ensureReady s with
  | .error e => (s, .error e)
  | .ok _ =>
    let p := getNextRequestId s
    sendRequestStart p.1 ⟨p.2, "resources/read", some (.resourceRead uri)⟩ none

/-- `(response.result as \x7b tools \x7d).tools || []`. -/
def toolsOfResult : Option MCPResult → List MCPTool
  | some (.toolList ts) => ts
  | _ => []

/-- `listTools` after the `await`: a resolved response with an error payload
throws the base `MCPError` ("Failed to list tools: ..."); otherwise the tools
array of the result (empty when absent). -/
def listToolsResume (out : AwaitOutcome) : Except MCPErr (List MCPTool) :=
  match out with
  | .rejectedErr e => .error e
  | .resolvedResp resp =>
    match resp.error with
    | some p => .error (.mcpError ("Failed to list tools: " ++ p.message))
    | none => .ok (toolsOfResult resp.result)

/-- The liveness probe inside `getHealthStatus` (phase `ready` only):
`sendRequest({method: "ping"}, 1000)`. -/
def pingStart (s : ClientState) : ClientState × Except MCPErr Unit :=
  let p := getNextRequestId s
  sendRequestStart p.1 ⟨p.2, "ping", none⟩ (some 1000)

/-- The record `getHealthStatus` returns; metrics flattened to fields. -/
structure HealthStatus where
  healthy : Bool
  error : Option String := none
  pendingRequests : Nat
  bufferSize : Nat
  connectionStatusMetric : Nat
deriving DecidableEq, Repr

def errMessage : MCPErr → String
  | .connectionError m => m
  | .timeoutError m => m
  | .mcpError m => m

/-- `getHealthStatus` before any `await`: metrics are computed on entry;
`disconnected` short-circuits to unhealthy; any other non-`ready` phase
returns without pinging (healthy iff `ready`, hence false); `ready` returns
`none` here, meaning the ping is issued and the result comes from
`getHealthResume`. -/
def getHealthEntry (s : ClientState) : Option HealthStatus :=
  let mp := s.pending.length
  let mb := s.buffer.length
  let mc := if s.connectionStatus = .ready then 1 else 0
  if s.connectionStatus = .disconnected then
    some { healthy := false, error := some "Client disconnected"
           pendingRequests := mp, bufferSize := mb, connectionStatusMetric := mc }
  else if s.connectionStatus ≠ .ready then
    some { healthy := false, pendingRequests := mp, bufferSize := mb
           connectionStatusMetric := mc }
  else
    none

/-- `getHealthStatus` after awaiting the ping. A RESOLVED ping promise —
whatever the response contains, the error field is never inspected — yields
`healthy: connectionStatus === 'ready'`; only a rejected await (timeout,
disconnect) reaches the catch block and yields `healthy: false` with the
error message. `mp`, `mb`, `mc` are the metrics snapshotted at entry. -/
def getHealthResume (mp mb mc : Nat) (s : ClientState) (out : AwaitOutcome) :
    HealthStatus :=
  match out with
  | .resolvedResp _ =>
    { healthy := s.connectionStatus == ConnStatus.ready
      pendingRequests := mp, bufferSize := mb, connectionStatusMetric := mc }
  | .rejectedErr e =>
    { healthy := false, error := some (errMessage e)
      pendingRequests := mp, bufferSize := mb, connectionStatusMetric := mc }

/-- Concrete configuration used in the concrete-state constructions below. -/
def cfgW : MCPClientConfig :=
  { serverCommand := "mcp-server", serverArgs := ["--stdio"] }

/-- A successful handshake response frame (id 1, the id `initStart`
allocates on a fresh connection). -/
def goodInitMsg : RawMessage :=
  { jsonrpcOk := true
    id := some 1
    result := some (.initResult ⟨⟨2024, 11, 5⟩, defaultCapabilities, ⟨"srv", "2.0.0"⟩⟩) }

/-- A client driven to phase `ready` through the API: construct, connect,
start the handshake, deliver the handshake response, resume. -/
def readyStateW : ClientState :=
  let s1 := (connect (freshState cfgW) true).1
  let s2 := (initStart s1 none).1
  let s3 := processMessage s2 (some goodInitMsg)
  (initResume s3 (.resolvedResp goodInitMsg)).1

/-- `readyStateW` with one in-flight `tools/list` request (id 2). -/
def inflightStateW : ClientState := (listToolsStart readyStateW).1

/-- An error-carrying response to request id 2. -/
def errMsgW : RawMessage :=
  { jsonrpcOk := true, id := some 2, error := some ⟨-32000, "boom"⟩ }

example : readyStateW.connectionStatus = ConnStatus.ready := by decide
example : readyStateW.nextRequestId = 2 := by decide
example : inflightStateW.pending = [2] := by decide
example : settledLookup inflightStateW.settled 2 = none := by decide
example : settledLookup inflightStateW.settled 1 = some (.resolved goodInitMsg) := by decide
example :
    settledLookup (processMessage inflightStateW (some errMsgW)).settled 2
      = some (.resolved errMsgW) := by decide
example : (connect (disconnect readyStateW) true).2 = .ok () := by rfl
example :
    initStart readyStateW none
      = (readyStateW, .error (.connectionError "Client not connected")) := by rfl
example : inflightStateW.timers = [(2, 30000)] := by decide

/-! ### Settle-once lemmas -/

/-- An already recorded settlement survives any later settle attempt. -/
theorem settleList_preserve {l : List (Nat × Outcome)} {i : Nat} {o : Outcome}
    (j : Nat) (o2 : Outcome) (h : settledLookup l i = some o) :
    settledLookup (settleList l j o2) i = some o := by
  unfold settleList
  cases hj : settledLookup l j with
  | some _ => simpa using h
  | none =>
    simp only [settledLookup]
    by_cases hij : i = j
    · subst hij; rw [h] at hj; cases hj
    · simpa [hij] using h

/-- Settling an unsettled id records exactly the given outcome. -/
theorem settleList_self {l : List (Nat × Outcome)} {i : Nat} (o : Outcome)
    (h : settledLookup l i = none) :
    settledLookup (settleList l i o) i = some o := by
  unfold settleList
  rw [h]
  simp [settledLookup]

/-- Settling one id leaves every other id's settlement unchanged. -/
theorem settleList_other {l : List (Nat × Outcome)} {i j : Nat}
    (o2 : Outcome) (hij : i ≠ j) :
    settledLookup (settleList l j o2) i = settledLookup l i := by
  unfold settleList
  cases hj : settledLookup l j with
  | some _ => rfl
  | none => simp [settledLookup, hij]

/-- The disconnect rejection pass preserves every existing settlement. -/
theorem rejectList_preserve {i : Nat} {o : Outcome} :
    ∀ (ids : List Nat) (l : List (Nat × Outcome)),
      settledLookup l i = some o → settledLookup (rejectList l ids) i = some o := by
  intro ids
  induction ids with
  | nil => intro l h; simpa [rejectList] using h
  | cons j rest ih =>
    intro l h
    simp only [rejectList]
    exact ih _ (settleList_preserve j _ h)

/-- The disconnect rejection pass settles every unsettled id it visits with
the connection-closed rejection. -/
theorem rejectList_mem {i : Nat} :
    ∀ (ids : List Nat) (l : List (Nat × Outcome)),
      i ∈ ids → settledLookup l i = none →
      settledLookup (rejectList l ids) i
        = some (.rejected (.connectionError "Connection closed")) := by
  intro ids
  induction ids with
  | nil => intro l h; cases h
  | cons j rest ih =>
    intro l hmem hnone
    simp only [rejectList]
    by_cases hij : i = j
    · subst hij
      exact rejectList_preserve rest _ (settleList_self _ hnone)
    · rcases List.mem_cons.mp hmem with h | h
      · exact absurd h hij
      · exact ih _ h (by rw [settleList_other _ hij]; exact hnone)

/-- `processMessage` never changes the connection phase. -/
theorem processMessage_status (s : ClientState) (msg : Option RawMessage) :
    (processMessage s msg).connectionStatus = s.connectionStatus := by
  unfold processMessage
  cases msg with
  | none => rfl
  | some m =>
    by_cases hok : m.jsonrpcOk = false
    · simp [hok]
    · simp only [hok, if_false]
      cases m.id with
      | some i =>
        by_cases hp : i ∈ s.pending
        · simp [hp, settleOnce]
        · simp [hp]
      | none =>
        cases m.method with
        | some name =>
          by_cases hn : name = ""
          · simp [hn]
          · simp [hn]
        | none => simp

/-- Shared helper: a response whose id matches a live pending request always
resolves the suspended caller with the full message — the `error` field is
never consulted on this path. -/
theorem processMessage_resolves (s : ClientState) (m : RawMessage) (i : Nat)
    (hok : m.jsonrpcOk = true) (hid : m.id = some i) (hp : i ∈ s.pending)
    (hu : settledLookup s.settled i = none) :
    settledLookup (processMessage s (some m)).settled i = some (.resolved m) := by
  unfold processMessage
  simp only [hok, hid, settleOnce]
  simp only [Bool.true_eq_false, if_false, hp, if_true]
  exact settleList_self _ hu

/-- A concrete client with one in-flight request (id 2) receiving an
error-carrying response for it: the pending promise is RESOLVED with the
message (`Outcome.resolved`), not rejected with a ProtocolError — refuting
the claim that an error-carrying response rejects the caller of
`sendRequest`. -/
theorem errorResponseRejects_cex :
    settledLookup (processMessage inflightStateW (some errMsgW)).settled 2
      = some (.resolved errMsgW)
    ∧ (settledLookup (processMessage inflightStateW (some errMsgW)).settled 2).map
        Outcome.isRejected = some false
    ∧ errMsgW.error = some ⟨-32000, "boom"⟩ := by
  refine ⟨by decide, by decide, by decide⟩

/-- C1 (amended): when a matching response arrives, the correlator always
resolves the suspended caller of `sendRequest` with the full response,
whether or not it carries an error payload; a protocol-level error is then
surfaced as a ProtocolError (`MCPError`) thrown by the public operation that
inspects the response's `error` field (shown here for `listTools`). -/
theorem responseAlwaysResolvesCaller (s : ClientState) (m : RawMessage)
    (i : Nat) (hok : m.jsonrpcOk = true) (hid : m.id = some i)
    (hp : i ∈ s.pending) (hu : settledLookup s.settled i = none) :
    settledLookup (processMessage s (some m)).settled i = some (.resolved m)
    ∧ (∀ p, m.error = some p →
        listToolsResume (.resolvedResp m)
          = .error (.mcpError ("Failed to list tools: " ++ p.message))) := by
  refine ⟨processMessage_resolves s m i hok hid hp hu, ?_⟩
  intro p hperr
  simp [listToolsResume, hperr]

theorem responseAlwaysResolvesCaller_witness :
    errMsgW.jsonrpcOk = true ∧ errMsgW.id = some 2
    ∧ 2 ∈ inflightStateW.pending
    ∧ settledLookup inflightStateW.settled 2 = none
    ∧ settledLookup (processMessage inflightStateW (some errMsgW)).settled 2
        = some (.resolved errMsgW) :=
  ⟨by decide, by decide, by decide, by decide,
   (responseAlwaysResolvesCaller inflightStateW errMsgW 2
      (by decide) (by decide) (by decide) (by decide)).1⟩

/-- C2: once a request's promise is settled (by response, timeout, write
failure or disconnect), every later settle attempt — a late matching
response, a late timer firing, a write-failure callback, or the disconnect
rejection pass — leaves the caller-observable outcome unchanged. -/
theorem settlementExactlyOnce (s : ClientState) (i j t : Nat) (o : Outcome)
    (m : RawMessage) (h : settledLookup s.settled i = some o) :
    settledLookup (processMessage s (some m)).settled i = some o
    ∧ settledLookup (fireTimer s j t).settled i = some o
    ∧ settledLookup (writeFail s j).settled i = some o
    ∧ settledLookup (disconnect s).settled i = some o := by
  refine ⟨?_, ?_, ?_, ?_⟩
  · unfold processMessage
    by_cases hok : m.jsonrpcOk = false
    · simpa [hok] using h
    · simp only [hok, if_false]
      cases hid : m.id with
      | some i2 =>
        by_cases hp : i2 ∈ s.pending
        · simp only [hp, if_true, settleOnce]
          exact settleList_preserve i2 _ h
        · simpa [hp] using h
      | none =>
        cases hm : m.method with
        | some name =>
          by_cases hn : name = ""
          · simpa [hn] using h
          · simpa [hn] using h
        | none => simpa using h
  · unfold fireTimer settleOnce
    exact settleList_preserve j _ h
  · unfold writeFail settleOnce
    exact settleList_preserve j _ h
  · unfold disconnect
    by_cases hd : s.connectionStatus = .disconnected
    · simpa [hd] using h
    · simp only [hd, if_false]
      exact rejectList_preserve s.pending _ h

theorem settlementExactlyOnce_witness :
    settledLookup (processMessage inflightStateW (some errMsgW)).settled 2
      = some (.resolved errMsgW)
    ∧ settledLookup
        (fireTimer (processMessage inflightStateW (some errMsgW)) 2 30000).settled 2
      = some (.resolved errMsgW)
    ∧ settledLookup
        (disconnect (processMessage inflightStateW (some errMsgW))).settled 2
      = some (.resolved errMsgW) := by
  have h := settlementExactlyOnce (processMessage inflightStateW (some errMsgW))
    2 2 30000 (.resolved errMsgW) errMsgW (by decide)
  exact ⟨by decide, h.2.1, h.2.2.2⟩

/-- A client driven to phase `connected` (constructed, then a successful
connect). -/
def connectedStateW : ClientState := (connect (freshState cfgW) true).1

/-- The client in phase `ready` (a phase later than `connected`): calling the
handshake method there does NOT proceed — it throws
`MCPConnectionError("Client not connected")` and writes no frame, refuting
the claim that the handshake is legal in `connected` or any later phase. -/
theorem initLaterPhase_cex :
    readyStateW.connectionStatus = ConnStatus.ready
    ∧ initStart readyStateW none
        = (readyStateW, .error (.connectionError "Client not connected"))
    ∧ (initStart readyStateW none).1.sentFrames = readyStateW.sentFrames := by
  refine ⟨by decide, by rfl, by rfl⟩

/-- C3 (amended): the handshake is legal ONLY in phase `connected`; in every
other phase (including the later phases `initializing` and `ready`) it fails
with a `ConnectionError` and leaves the state untouched. From `connected` it
moves to `initializing` and writes the handshake frame; on handshake failure
(an awaited rejection, or an error-carrying handshake response) the phase
reverts to `connected` and the error is rethrown. -/
theorem initPhaseRules (s s2 s4 : ClientState) (e : MCPErr)
    (params : Option MCPInitParams) (m : RawMessage) (p : MCPErrorPayload)
    (hnc : s.connectionStatus ≠ .connected) (herr : m.error = some p) :
    initStart s params = (s, .error (.connectionError "Client not connected"))
    ∧ (s2.connectionStatus = .connected → s2.stdinOpen = true →
        (initStart s2 params).2 = .ok ()
        ∧ (initStart s2 params).1.connectionStatus = .initializing
        ∧ (initStart s2 params).1.sentFrames
            = s2.sentFrames ++ [⟨s2.nextRequestId, "initialize",
                some (.initParams (params.getD (defaultInitParams s2.config)))⟩])
    ∧ initResume s4 (.rejectedErr e)
        = ({ s4 with connectionStatus := .connected }, .error e)
    ∧ initResume s4 (.resolvedResp m)
        = ({ s4 with connectionStatus := .connected },
           .error (.mcpError ("Initialization failed: " ++ p.message))) := by
  refine ⟨?_, ?_, rfl, ?_⟩
  · simp [initStart, hnc]
  · intro hc ho
    unfold initStart getNextRequestId sendRequestStart
    simp [hc, ho]
  · simp [initResume, herr]

theorem initPhaseRules_witness :
    readyStateW.connectionStatus ≠ ConnStatus.connected
    ∧ errMsgW.error = some ⟨-32000, "boom"⟩
    ∧ initStart readyStateW none
        = (readyStateW, .error (.connectionError "Client not connected"))
    ∧ connectedStateW.connectionStatus = ConnStatus.connected
    ∧ (initStart connectedStateW none).2 = .ok ()
    ∧ (initStart connectedStateW none).1.connectionStatus
        = ConnStatus.initializing := by
  have h := initPhaseRules readyStateW connectedStateW readyStateW
    (.timeoutError "Request timeout after 30000ms") none errMsgW ⟨-32000, "boom"⟩
    (by decide) (by decide)
  have h2 := h.2.1 (by decide) (by decide)
  exact ⟨by decide, by decide, h.1, by decide, h2.1, h2.2.1⟩

/-- The fresh-connect / disconnect / connect-again sequence succeeds on one
and the same client value: after `disconnect()` the phase is back to
`disconnected` and `connect()` runs its normal path to `connected`, refuting
the claim that a disconnected instance cannot connect again. -/
theorem reconnectSucceeds_cex :
    (connect (disconnect (connect (freshState cfgW) true).1) true).2 = .ok ()
    ∧ (connect (disconnect (connect (freshState cfgW) true).1) true).1.connectionStatus
        = ConnStatus.connected := by
  refine ⟨by rfl, by decide⟩

/-- Shared helper: `disconnect` always leaves the phase `disconnected`. -/
theorem disconnect_status (s : ClientState) :
    (disconnect s).connectionStatus = .disconnected := by
  unfold disconnect
  by_cases h : s.connectionStatus = .disconnected
  · simp [h]
  · simp [h]

/-- Shared helper: `disconnect` on an already disconnected client is the
identity. -/
theorem disconnect_noop (s : ClientState)
    (h : s.connectionStatus = .disconnected) : disconnect s = s := by
  simp [disconnect, h]

/-- C4 (amended): `disconnect()` always leaves the phase `disconnected`, and
`connect()` is legal exactly when the phase is `disconnected` — so the same
instance CAN connect again after a disconnect (a fresh process is spawned);
no recreation is required. -/
theorem disconnectAllowsReconnect (s : ClientState) :
    (disconnect s).connectionStatus = .disconnected
    ∧ (connect (disconnect s) true).2 = .ok ()
    ∧ (connect (disconnect s) true).1.connectionStatus = .connected := by
  have hd : (disconnect s).connectionStatus = .disconnected := disconnect_status s
  refine ⟨hd, ?_, ?_⟩
  · unfold connect
    simp [hd]
  · unfold connect
    simp [hd]

/-- C5: invoked from any live phase, `disconnect()` rejects every pending
request with `MCPConnectionError("Connection closed")` in its single
rejection pass and empties the table; invoked in phase `disconnected` it is
a no-op, and it is idempotent. (It is a total function of the state: the
model has no throwing path.) -/
theorem disconnectRejectsAllIdempotent (s : ClientState) (i : Nat)
    (hs : s.connectionStatus ≠ .disconnected)
    (hi : i ∈ s.pending) (hu : settledLookup s.settled i = none) :
    settledLookup (disconnect s).settled i
      = some (.rejected (.connectionError "Connection closed"))
    ∧ (disconnect s).pending = []
    ∧ (∀ s3 : ClientState, s3.connectionStatus = .disconnected → disconnect s3 = s3)
    ∧ (∀ s2 : ClientState, disconnect (disconnect s2) = disconnect s2) := by
  refine ⟨?_, ?_, ?_, ?_⟩
  · unfold disconnect
    simp only [hs, if_false]
    exact rejectList_mem s.pending _ hi hu
  · simp [disconnect, hs]
  · intro s3 h3
    simp [disconnect, h3]
  · intro s2
    exact disconnect_noop (disconnect s2) (disconnect_status s2)

theorem disconnectRejectsAllIdempotent_witness :
    inflightStateW.connectionStatus ≠ ConnStatus.disconnected
    ∧ 2 ∈ inflightStateW.pending
    ∧ settledLookup inflightStateW.settled 2 = none
    ∧ settledLookup (disconnect inflightStateW).settled 2
        = some (.rejected (.connectionError "Connection closed"))
    ∧ (disconnect inflightStateW).pending = [] := by
  have h := disconnectRejectsAllIdempotent inflightStateW 2
    (by decide) (by decide) (by decide)
  exact ⟨by decide, by decide, by decide, h.1, h.2.1⟩

/-- The error `ensureReady` throws: a `ConnectionError` naming the current
phase. -/
def notReadyErr (s : ClientState) : MCPErr :=
  .connectionError ("Client not ready, current status: "
    ++ statusText s.connectionStatus)

/-- C6: every `ready`-gated operation invoked while the phase is not `ready`
fails synchronously with the `ConnectionError` naming the current phase and
leaves the state — in particular `sentFrames` — completely unchanged: no
frame is built or written. -/
theorem readyGateNoFrame (s : ClientState) (call : MCPToolCall)
    (name uri : String) (args : Option (List (String × String)))
    (h : s.connectionStatus ≠ .ready) :
    listToolsStart s = (s, .error (notReadyErr s))
    ∧ listPromptsStart s = (s, .error (notReadyErr s))
    ∧ listResourcesStart s = (s, .error (notReadyErr s))
    ∧ callToolStart s call = (s, .error (notReadyErr s))
    ∧ getPromptStart s name args = (s, .error (notReadyErr s))
    ∧ getResourceStart s uri = (s, .error (notReadyErr s)) := by
  have hg : ensureReady s = .error (notReadyErr s) := by
    simp [ensureReady, notReadyErr, h]
  refine ⟨?_, ?_, ?_, ?_, ?_, ?_⟩ <;>
    simp [listToolsStart, listPromptsStart, listResourcesStart,
      callToolStart, getPromptStart, getResourceStart, hg]

theorem readyGateNoFrame_witness :
    connectedStateW.connectionStatus ≠ ConnStatus.ready
    ∧ listToolsStart connectedStateW
        = (connectedStateW, .error (notReadyErr connectedStateW))
    ∧ callToolStart connectedStateW ⟨"echo", [("x", "1")]⟩
        = (connectedStateW, .error (notReadyErr connectedStateW)) := by
  have h := readyGateNoFrame connectedStateW ⟨"echo", [("x", "1")]⟩
    "p" "file.txt" none (by decide)
  exact ⟨by decide, h.1, h.2.2.2.1⟩

/-- C7: the effective timeout is the per-call override when truthy, else the
configured default when truthy, else 30000 ms; the armed timer carries
exactly that bound; and when the timer for an unsettled request fires, the
caller is rejected with the `MCPTimeoutError` naming the bound and the
request's entry leaves the pending table. -/
theorem timeoutRejectsAndRemoves (s : ClientState) (i t : Nat)
    (req : MCPRequest) (tm : Option Nat) (hnd : s.pending.Nodup)
    (_harm : (i, t) ∈ s.timers) (hu : settledLookup s.settled i = none) :
    settledLookup (fireTimer s i t).settled i
      = some (.rejected (.timeoutError
          ("Request timeout after " ++ toString t ++ "ms")))
    ∧ i ∉ (fireTimer s i t).pending
    ∧ (s.connectionStatus ≠ .disconnected → s.stdinOpen = true →
        (req.id, effectiveTimeout tm s.config.timeout)
          ∈ (sendRequestStart s req tm).1.timers)
    ∧ (∀ t2 c, t2 ≠ 0 → effectiveTimeout (some t2) c = t2)
    ∧ (∀ d, d ≠ 0 → effectiveTimeout none (some d) = d)
    ∧ effectiveTimeout none none = 30000 := by
  refine ⟨?_, ?_, ?_, ?_, ?_, rfl⟩
  · unfold fireTimer settleOnce
    exact settleList_self _ hu
  · unfold fireTimer settleOnce
    exact hnd.not_mem_erase
  · intro hc ho
    unfold sendRequestStart
    simp [hc, ho]
  · intro t2 c h2
    simp [effectiveTimeout, orFalsyNat, h2]
  · intro d h2
    simp [effectiveTimeout, orFalsyNat, h2]

theorem timeoutRejectsAndRemoves_witness :
    inflightStateW.pending.Nodup
    ∧ (2, 30000) ∈ inflightStateW.timers
    ∧ settledLookup inflightStateW.settled 2 = none
    ∧ settledLookup (fireTimer inflightStateW 2 30000).settled 2
        = some (.rejected (.timeoutError "Request timeout after 30000ms"))
    ∧ 2 ∉ (fireTimer inflightStateW 2 30000).pending := by
  have h := timeoutRejectsAndRemoves inflightStateW 2 30000
    ⟨3, "ping", none⟩ none (by decide) (by decide) (by decide)
  exact ⟨by decide, by decide, by decide, h.1, h.2.1⟩

/-- C8: `connect()` in any phase other than `disconnected` fails with
`MCPConnectionError("Client already connected or connecting")` and changes
nothing; from `disconnected` a successful spawn reaches exactly `connected`
and a failed spawn reverts to exactly `disconnected` with the spawn error —
never an intermediate phase. -/
theorem connectPhaseRules (s : ClientState) (b : Bool)
    (h : s.connectionStatus ≠ .disconnected) :
    connect s b
      = (s, .error (.connectionError "Client already connected or connecting"))
    ∧ ∀ s2 : ClientState, s2.connectionStatus = .disconnected →
        (connect s2 true).1.connectionStatus = .connected
        ∧ (connect s2 true).2 = .ok ()
        ∧ (connect s2 false).1.connectionStatus = .disconnected
        ∧ (connect s2 false).2
            = .error (.connectionError "Failed to start MCP server process") := by
  refine ⟨by simp [connect, h], ?_⟩
  intro s2 h2
  refine ⟨?_, ?_, ?_, ?_⟩ <;> simp [connect, h2]

theorem connectPhaseRules_witness :
    connectedStateW.connectionStatus ≠ ConnStatus.disconnected
    ∧ connect connectedStateW true
        = (connectedStateW,
           .error (.connectionError "Client already connected or connecting"))
    ∧ (connect (freshState cfgW) true).1.connectionStatus = ConnStatus.connected
    ∧ (connect (freshState cfgW) false).1.connectionStatus
        = ConnStatus.disconnected := by
  have h := connectPhaseRules connectedStateW true (by decide)
  have h2 := h.2 (freshState cfgW) (by decide)
  exact ⟨by decide, h.1, h2.1, h2.2.2.1⟩

/-- C9: a well-formed response whose id matches no pending request is dropped
with exactly one warning logged: the function returns normally (it is total)
and every other component of the client state — the pending table, every
other caller's settlement, the timers, the phase, the frames — is untouched. -/
theorem unknownIdDropped (s : ClientState) (m : RawMessage) (i : Nat)
    (hok : m.jsonrpcOk = true) (hid : m.id = some i) (hp : i ∉ s.pending) :
    processMessage s (some m) = { s with warnings := s.warnings + 1 } := by
  unfold processMessage
  simp [hok, hid, hp]

/-- A well-formed response frame whose id (99) matches no pending request. -/
def strayMsgW : RawMessage := { jsonrpcOk := true, id := some 99 }

theorem unknownIdDropped_witness :
    strayMsgW.jsonrpcOk = true ∧ strayMsgW.id = some 99
    ∧ 99 ∉ inflightStateW.pending
    ∧ processMessage inflightStateW (some strayMsgW)
        = { inflightStateW with warnings := inflightStateW.warnings + 1 } :=
  ⟨by decide, by decide, by decide,
   unknownIdDropped inflightStateW strayMsgW 99 (by decide) (by decide) (by decide)⟩

/-- C10: with the client `ready` and a liveness ping in flight, a ping
response that carries a protocol-level error payload still RESOLVES the
ping's promise (the correlator never inspects the error field), and the
health check's post-await code reports `healthy: true` with no error — it
checks only that the phase is still `ready`, never the ping response's
`error` field. -/
theorem healthyDespiteErrorPing (s : ClientState) (m : RawMessage)
    (i : Nat) (p : MCPErrorPayload) (mp mb mc : Nat)
    (hready : s.connectionStatus = .ready) (hok : m.jsonrpcOk = true)
    (hid : m.id = some i) (hp : i ∈ s.pending)
    (hu : settledLookup s.settled i = none) (_herr : m.error = some p) :
    settledLookup (processMessage s (some m)).settled i = some (.resolved m)
    ∧ (getHealthResume mp mb mc (processMessage s (some m))
        (.resolvedResp m)).healthy = true
    ∧ (getHealthResume mp mb mc (processMessage s (some m))
        (.resolvedResp m)).error = none := by
  refine ⟨processMessage_resolves s m i hok hid hp hu, ?_, rfl⟩
  have hst := processMessage_status s (some m)
  simp [getHealthResume, hst, hready]

/-- `readyStateW` with a liveness ping in flight (id 2, 1000 ms bound). -/
def pingStateW : ClientState := (pingStart readyStateW).1

theorem healthyDespiteErrorPing_witness :
    pingStateW.connectionStatus = ConnStatus.ready
    ∧ 2 ∈ pingStateW.pending
    ∧ errMsgW.error = some ⟨-32000, "boom"⟩
    ∧ settledLookup (processMessage pingStateW (some errMsgW)).settled 2
        = some (.resolved errMsgW)
    ∧ (getHealthResume 1 0 1 (processMessage pingStateW (some errMsgW))
        (.resolvedResp errMsgW)).healthy = true := by
  have h := healthyDespiteErrorPing pingStateW errMsgW 2 ⟨-32000, "boom"⟩ 1 0 1
    (by decide) (by decide) (by decide) (by decide) (by decide) (by decide)
  exact ⟨by decide, by decide, by decide, h.1, h.2.1⟩
